import Mathlib

/-!
# Verification of the octavia-perf-test telemetry core

Shallow embedding of the collection scheduler, the time-series store, the
counter-to-rate aggregator and the rule-based bottleneck detector
(`src/collectors/aggregator.py`, `src/collectors/storage.py`,
`src/analysis/bottleneck_detector.py`), together with theorems settling the
spec's claims about them.

Modelling conventions:
* Python `int` is `Int`; Python `float` results of divisions are `Rat`
  (the source only ever divides, multiplies by 100 and compares, so exact
  rationals are a faithful model of the values compared against thresholds).
* A Python dict used as a record of counters is an association list
  `List (String × Int)`; `dict.get(k, d)` is `(List.lookup k l).getD d` and
  the pervasive `dict.get(k, d) or d` idiom (which also replaces a falsy `0`
  or `None` by `d`) is `pyOrI`/`pyOrQ` below.
* Wall-clock timestamps are abstract numbers; exceptions are `Except`.
-/

namespace OctaviaPerf

/-- Python `v or d` applied to an optional integer field: `None` (or an
absent key whose `get` default equals a falsy value) and `0` are both
replaced by the default `d`; any other value passes through. -/
def pyOrI (v : Option Int) (d : Int) : Int :=
  match v with
  | none => d
  | some x => if x = 0 then d else x

/-- Python `v or d` for an optional rational (float) field. -/
def pyOrQ (v : Option Rat) (d : Rat) : Rat :=
  match v with
  | none => d
  | some x => if x = 0 then d else x

/-! ## Aggregator: `MetricsAggregator.calculate_rates`
(`src/collectors/aggregator.py` lines 42-68) -/

/-- One iteration of the `for key in current` loop of `calculate_rates`:
if the key is also in `previous`, compute `delta = current[key] -
previous[key]` and, when the delta is non-negative (counter-reset
suppression), emit the entry `(key + "_per_sec", delta / interval)`. -/
def rateEntry (previous : List (String × Int)) (interval_seconds : Rat)
    (kv : String × Int) : Option (String × Rat) :=
  (List.lookup kv.1 previous).bind fun prev_v =>
    if 0 ≤ kv.2 - prev_v then
      some (kv.1 ++ "_per_sec", ((kv.2 - prev_v : Int) : Rat) / interval_seconds)
    else
      none

/-- `MetricsAggregator.calculate_rates(current, previous, interval_seconds)`:
returns `{}` when `interval_seconds <= 0`, otherwise one `<key>_per_sec`
rate per key present in both maps with non-negative delta. -/
def calculate_rates (current previous : List (String × Int))
    (interval_seconds : Rat) : List (String × Rat) :=
  if interval_seconds ≤ 0 then []
  else current.filterMap (rateEntry previous interval_seconds)

/-- Appending the fixed `"_per_sec"` suffix is injective on keys. -/
theorem append_suffix_inj {a b : String} (s : String) (h : a ++ s = b ++ s) :
    a = b := by
  have hd : a.data ++ s.data = b.data ++ s.data := by
    rw [← String.data_append, ← String.data_append, h]
  exact String.ext (List.append_left_injective s.data hd)

theorem lookup_eq_none_of_not_mem_keys {β : Type} (k : String)
    (l : List (String × β)) (h : k ∉ l.map Prod.fst) :
    List.lookup k l = none := by
  induction l with
  | nil => rfl
  | cons kv rest ih =>
    simp only [List.map_cons, List.mem_cons, not_or] at h
    rw [List.lookup_cons]
    have : (k == kv.1) = false := by
      simpa [beq_iff_eq] using h.1
    rw [this]
    exact ih h.2

/-- The key of any entry emitted by `rateEntry` is the source key with the
`"_per_sec"` suffix. -/
theorem rateEntry_key (previous : List (String × Int)) (interval : Rat)
    (kv : String × Int) (e : String × Rat)
    (h : rateEntry previous interval kv = some e) : e.1 = kv.1 ++ "_per_sec" := by
  unfold rateEntry at h
  rcases hp : List.lookup kv.1 previous with _ | pv <;> rw [hp] at h
  · exact absurd h (by simp)
  · rw [Option.some_bind] at h
    by_cases hdel : 0 ≤ kv.2 - pv
    · rw [if_pos hdel] at h
      cases h; rfl
    · rw [if_neg hdel] at h
      exact absurd h (by simp)

/-- Characterization of a lookup in the rates list produced by the
`filterMap` body of `calculate_rates`, for current maps with distinct keys
(the Python-`dict` invariant). -/
theorem lookup_rates_aux (previous : List (String × Int)) (interval : Rat)
    (k : String) :
    ∀ current : List (String × Int), (current.map Prod.fst).Nodup →
      List.lookup (k ++ "_per_sec")
          (current.filterMap (rateEntry previous interval)) =
        match List.lookup k current, List.lookup k previous with
        | some v, some pv =>
            if 0 ≤ v - pv then some (((v - pv : Int) : Rat) / interval)
            else none
        | _, _ => none := by
  intro current
  induction current with
  | nil => intro; rfl
  | cons kv rest ih =>
    obtain ⟨ck, cv⟩ := kv
    intro hnd
    simp only [List.map_cons, List.nodup_cons] at hnd
    obtain ⟨hk, hrest⟩ := hnd
    by_cases hke : k = ck
    · have hlk : List.lookup k ((ck, cv) :: rest) = some cv := by
        rw [List.lookup_cons]
        have : (k == ck) = true := by simpa [beq_iff_eq] using hke
        rw [this]
      rw [hlk]
      have hrestnone : List.lookup k rest = none := by
        apply lookup_eq_none_of_not_mem_keys
        rw [hke]; exact hk
      rcases hp : List.lookup k previous with _ | pv
      · simp only [List.filterMap_cons]
        have hnone : rateEntry previous interval (ck, cv) = none := by
          unfold rateEntry
          rw [show List.lookup ck previous = none from hke ▸ hp]
          rfl
        rw [hnone, ih hrest, hrestnone, hp]
      · simp only [List.filterMap_cons]
        have hsome : rateEntry previous interval (ck, cv) =
            if 0 ≤ cv - pv then
              some (ck ++ "_per_sec", ((cv - pv : Int) : Rat) / interval)
            else none := by
          unfold rateEntry
          rw [show List.lookup ck previous = some pv from hke ▸ hp]
          rfl
        by_cases hdel : 0 ≤ cv - pv
        · rw [hsome, if_pos hdel]
          rw [List.lookup_cons]
          have heqk : (k ++ "_per_sec" == ck ++ "_per_sec") = true := by
            simpa [beq_iff_eq] using congrArg (· ++ "_per_sec") hke
          rw [heqk, if_pos hdel]
        · rw [hsome, if_neg hdel, ih hrest, hrestnone, if_neg hdel]
    · have hlk : List.lookup k ((ck, cv) :: rest) = List.lookup k rest := by
        rw [List.lookup_cons]
        have : (k == ck) = false := by simpa [beq_iff_eq] using hke
        rw [this]
      rw [hlk]
      simp only [List.filterMap_cons]
      rcases hre : rateEntry previous interval (ck, cv) with _ | e
      · exact ih hrest
      · obtain ⟨ek, ev⟩ := e
        have hekey : ek = ck ++ "_per_sec" :=
          rateEntry_key previous interval _ _ hre
        rw [List.lookup_cons]
        have hnek : (k ++ "_per_sec" == ek) = false := by
          rw [hekey]
          simp only [beq_eq_false_iff_ne, ne_eq]
          intro hcontra
          exact hke (append_suffix_inj _ hcontra)
        rw [hnek]
        exact ih hrest

/-- C1: for every current/previous counter map pair and interval:
if the interval is ≤ 0, `calculate_rates` returns the empty map; otherwise
every field present in both maps with non-negative delta gets the rate
`delta / interval` (under its `_per_sec` key), a field with negative delta
gets no entry, and a field absent from either map gets no entry. -/
theorem c1_calculate_rates (current previous : List (String × Int))
    (interval : Rat) (hnd : (current.map Prod.fst).Nodup) :
    (interval ≤ 0 → calculate_rates current previous interval = []) ∧
    (0 < interval → ∀ (k : String) (v pv : Int),
      List.lookup k current = some v → List.lookup k previous = some pv →
      (0 ≤ v - pv →
        List.lookup (k ++ "_per_sec") (calculate_rates current previous interval)
          = some (((v - pv : Int) : Rat) / interval)) ∧
      (v - pv < 0 →
        List.lookup (k ++ "_per_sec") (calculate_rates current previous interval)
          = none)) ∧
    (0 < interval → ∀ k : String,
      (List.lookup k current = none ∨ List.lookup k previous = none) →
      List.lookup (k ++ "_per_sec") (calculate_rates current previous interval)
        = none) := by
  refine ⟨fun hle => by simp [calculate_rates, hle], ?_, ?_⟩
  · intro hpos k v pv hcv hpv
    have hni : ¬ interval ≤ 0 := not_le.mpr hpos
    constructor
    · intro hdel
      unfold calculate_rates
      rw [if_neg hni, lookup_rates_aux previous interval k current hnd, hcv, hpv]
      simp only []
      rw [if_pos hdel]
    · intro hdel
      unfold calculate_rates
      rw [if_neg hni, lookup_rates_aux previous interval k current hnd, hcv, hpv]
      simp only []
      rw [if_neg (not_le.mpr hdel)]
  · intro hpos k habs
    have hni : ¬ interval ≤ 0 := not_le.mpr hpos
    unfold calculate_rates
    rw [if_neg hni, lookup_rates_aux previous interval k current hnd]
    rcases habs with h | h
    · rw [h]
    · rw [h]
      cases List.lookup k current <;> rfl

/-- Concrete instantiation of `c1_calculate_rates`: counters
`{stot: 7}` against `{stot: 3}` over a 2-second interval give a
`stot_per_sec` rate of 2; a decreasing counter `{bin: 1}` vs `{bin: 5}`
yields no entry. -/
theorem c1_calculate_rates_witness :
    List.lookup ("stot" ++ "_per_sec")
        (calculate_rates [("stot", (7 : Int)), ("bin", 1)]
          [("stot", 3), ("bin", 5)] 2)
      = some ((((7 : Int) - 3 : Int) : Rat) / 2) ∧
    List.lookup ("bin" ++ "_per_sec")
        (calculate_rates [("stot", (7 : Int)), ("bin", 1)]
          [("stot", 3), ("bin", 5)] 2)
      = none := by
  have h := c1_calculate_rates [("stot", (7 : Int)), ("bin", 1)]
    [("stot", 3), ("bin", 5)] 2 (by decide)
  exact ⟨(h.2.1 (by norm_num) "stot" 7 3 (by decide) (by decide)).1 (by decide),
    (h.2.1 (by norm_num) "bin" 1 5 (by decide) (by decide)).2 (by decide)⟩

/-! ## Aggregator: `MetricsAggregator.aggregate_haproxy_stats`
(`src/collectors/aggregator.py` lines 70-150) -/

/-- One raw HAProxy stats row as consumed by the aggregator: the fields it
reads, each possibly absent/None. -/
structure RawStat where
  svname : Option String
  scur : Option Int
  slim : Option Int
  stot : Option Int
  bin : Option Int
  bout : Option Int
  req_tot : Option Int
  ereq : Option Int
  dreq : Option Int
  hrsp_2xx : Option Int
  hrsp_4xx : Option Int
  hrsp_5xx : Option Int
  qcur : Option Int
  status : Option String
deriving DecidableEq

/-- `int(s.get(key, 0) or 0)`. -/
def intOrZero (v : Option Int) : Int := pyOrI v 0

/-- `sum(int(s.get(key, 0) or 0) for s in rows)`. -/
def sumCounter (f : RawStat → Option Int) (rows : List RawStat) : Int :=
  (rows.map fun s => intOrZero (f s)).sum

def frontendRows (stats : List RawStat) : List RawStat :=
  stats.filter fun s => s.svname == some "FRONTEND"

def backendRows (stats : List RawStat) : List RawStat :=
  stats.filter fun s => s.svname == some "BACKEND"

def serverRows (stats : List RawStat) : List RawStat :=
  stats.filter fun s =>
    !(s.svname == some "FRONTEND") && !(s.svname == some "BACKEND")

structure DerivedMetrics where
  connection_saturation_pct : Rat
  error_rate_pct : Rat
  healthy_servers : Nat
  total_servers : Nat
  requests_per_sec : Rat
  throughput_in_bps : Rat
  throughput_out_bps : Rat
deriving DecidableEq

structure AggCounts where
  frontend_count : Nat
  backend_count : Nat
  server_count : Nat
deriving DecidableEq

/-- The dictionary returned by `aggregate_haproxy_stats` (its ISO display
timestamp is presentation-only and not modelled). -/
structure AggResult where
  counters : List (String × Int)
  rates : List (String × Rat)
  derived : DerivedMetrics
  summary : AggCounts
deriving DecidableEq

/-- `MetricsAggregator.aggregate_haproxy_stats`.  `prev` is the
`(self._prev_haproxy_stats, self._prev_timestamp)` slot (`none` models the
falsy initial state in which no rates are computed); `now` is `time.time()`.
The source's mutation of the slot to `(current, now)` afterwards is the
caller's state threading and is not part of this value. -/
def aggregate_haproxy_stats (prev : Option (List (String × Int) × Rat))
    (now : Rat) (stats : List RawStat) : AggResult :=
  let fes := frontendRows stats
  let bes := backendRows stats
  let svs := serverRows stats
  let scurS := sumCounter (fun s => s.scur) fes
  let slimS := sumCounter (fun s => s.slim) fes
  let stotS := sumCounter (fun s => s.stot) fes
  let binS := sumCounter (fun s => s.bin) fes
  let boutS := sumCounter (fun s => s.bout) fes
  let reqTotS := sumCounter (fun s => s.req_tot) fes
  let ereqS := sumCounter (fun s => s.ereq) fes
  let dreqS := sumCounter (fun s => s.dreq) fes
  let h2S := sumCounter (fun s => s.hrsp_2xx) fes
  let h4S := sumCounter (fun s => s.hrsp_4xx) fes
  let h5S := sumCounter (fun s => s.hrsp_5xx) fes
  let qcurS := sumCounter (fun s => s.qcur) bes
  let current : List (String × Int) :=
    [("scur", scurS), ("slim", slimS), ("stot", stotS), ("bin", binS),
     ("bout", boutS), ("req_tot", reqTotS), ("ereq", ereqS), ("dreq", dreqS),
     ("hrsp_2xx", h2S), ("hrsp_4xx", h4S), ("hrsp_5xx", h5S), ("qcur", qcurS)]
  let rates : List (String × Rat) :=
    match prev with
    | none => []
    | some (prevStats, prevTs) => calculate_rates current prevStats (now - prevTs)
  let saturation : Rat :=
    if 0 < slimS then ((scurS : Rat) / (slimS : Rat)) * 100 else 0
  let error_rate : Rat :=
    if 0 < stotS then ((ereqS : Rat) / (stotS : Rat)) * 100 else 0
  let healthy := (svs.filter fun s => s.status == some "UP").length
  { counters := current
    rates := rates
    derived :=
      { connection_saturation_pct := saturation
        error_rate_pct := error_rate
        healthy_servers := healthy
        total_servers := svs.length
        requests_per_sec := (List.lookup "req_tot_per_sec" rates).getD 0
        throughput_in_bps := (List.lookup "bin_per_sec" rates).getD 0
        throughput_out_bps := (List.lookup "bout_per_sec" rates).getD 0 }
    summary :=
      { frontend_count := fes.length
        backend_count := bes.length
        server_count := svs.length } }

/-! ## Bottleneck detector (`src/analysis/bottleneck_detector.py`) -/

inductive BType where
  | cpu
  | memory
  | network
  | connection_limit
  | backend
  | configuration
deriving DecidableEq

inductive Severity where
  | low
  | medium
  | high
  | critical
deriving DecidableEq

/-- The `severity_order` ranking used by `BottleneckDetector.analyze` for
sorting (CRITICAL first). -/
def severity_order : Severity → Nat
  | .critical => 0
  | .high => 1
  | .medium => 2
  | .low => 3

/-- Values appearing in a finding's evidence map: Python ints, floats
(modelled exactly as rationals) and the connection-trend list. -/
inductive EvidenceVal where
  | int (n : Int)
  | rat (q : Rat)
  | intList (l : List Int)
deriving DecidableEq

/-- A detected bottleneck.  The free-text `description` (an f-string
embedding the same values as the evidence map, with float formatting) is
presentation-only and not modelled. -/
structure Bottleneck where
  type : BType
  severity : Severity
  evidence : List (String × EvidenceVal)
  recommendation : String
  affected_component : String
deriving DecidableEq

/-- Detection thresholds (class attributes of `BottleneckDetector`). -/
def CPU_HIGH_THRESHOLD : Rat := 80
def CPU_CRITICAL_THRESHOLD : Rat := 95
def MEMORY_LOW_THRESHOLD : Rat := 10
def MEMORY_CRITICAL_THRESHOLD : Rat := 5
def CONNECTION_SATURATION_HIGH : Rat := 70
def CONNECTION_SATURATION_CRITICAL : Rat := 90
def QUEUE_WARNING_THRESHOLD : Int := 10
def ERROR_RATE_WARNING : Rat := 1
def ERROR_RATE_HIGH : Rat := 5

/-- One HAProxy time-series sample as read by `_analyze_haproxy` (only the
fields it accesses). -/
structure HSample where
  scur : Option Int
  slim : Option Int
  qcur : Option Int
  stot : Option Int
  ereq : Option Int
deriving DecidableEq

/-- `saturation = (scur / slim) * 100` over the latest sample's
`scur`/`slim` fields (each `latest.get(key, 0) or 0`). -/
def satPct (latest : HSample) : Rat :=
  ((pyOrI latest.scur 0 : Rat) / (pyOrI latest.slim 0 : Rat)) * 100

/-- Connection-limit saturation checks of `_analyze_haproxy`
(lines 142-187). -/
def connection_saturation_findings (latest : HSample) : List Bottleneck :=
  let scur := pyOrI latest.scur 0
  let slim := pyOrI latest.slim 0
  if 0 < slim then
    let saturation : Rat := satPct latest
    if CONNECTION_SATURATION_CRITICAL ≤ saturation then
      [{ type := .connection_limit
         severity := .critical
         evidence := [("current_connections", .int scur),
                      ("max_connections", .int slim),
                      ("saturation_percent", .rat saturation)]
         recommendation :=
           "Increase listener connection_limit in Octavia. Maximum supported is 1,000,000. Also consider adding more amphora instances."
         affected_component := "amphora/haproxy" }]
    else if CONNECTION_SATURATION_HIGH ≤ saturation then
      [{ type := .connection_limit
         severity := .high
         evidence := [("current_connections", .int scur),
                      ("max_connections", .int slim),
                      ("saturation_percent", .rat saturation)]
         recommendation :=
           "Consider increasing connection_limit before it becomes critical. Current limit: {slim}"
         affected_component := "amphora/haproxy" }]
    else []
  else []

/-- Queue-depth check of `_analyze_haproxy` (lines 189-203). -/
def queue_findings (latest : HSample) : List Bottleneck :=
  let qcur := pyOrI latest.qcur 0
  if QUEUE_WARNING_THRESHOLD < qcur then
    [{ type := .backend
       severity := if 50 < qcur then .high else .medium
       evidence := [("queue_current", .int qcur)]
       recommendation :=
         "Backend servers may be overloaded. Consider adding more backend members or increasing their capacity."
       affected_component := "backend_servers" }]
  else []

/-- Error-rate checks of `_analyze_haproxy` (lines 205-238). -/
def error_rate_findings (latest : HSample) : List Bottleneck :=
  let stot := pyOrI latest.stot 0
  let ereq := pyOrI latest.ereq 0
  if 0 < stot then
    let error_rate : Rat := ((ereq : Rat) / (stot : Rat)) * 100
    if ERROR_RATE_HIGH ≤ error_rate then
      [{ type := .configuration
         severity := .high
         evidence := [("total_requests", .int stot), ("errors", .int ereq),
                      ("error_rate_percent", .rat error_rate)]
         recommendation :=
           "Investigate error causes. Check HAProxy logs, backend health, and timeout settings."
         affected_component := "amphora/haproxy" }]
    else if ERROR_RATE_WARNING ≤ error_rate then
      [{ type := .configuration
         severity := .medium
         evidence := [("total_requests", .int stot), ("errors", .int ereq),
                      ("error_rate_percent", .rat error_rate)]
         recommendation := "Monitor error rate and investigate causes."
         affected_component := "amphora/haproxy" }]
    else []
  else []

/-- `all(recent_scur[i] <= recent_scur[i+1] for i in range(len-1))`. -/
def nonDecrAdj : List Int → Bool
  | [] => true
  | [_] => true
  | a :: b :: rest => decide (a ≤ b) && nonDecrAdj (b :: rest)

/-- `[s.get('scur', 0) or 0 for s in stats[-10:]]` (for `len(stats) ≥ 10`,
`stats[-10:]` is `drop (length - 10)`). -/
def recent_scur (stats : List HSample) : List Int :=
  (stats.drop (stats.length - 10)).map fun s => pyOrI s.scur 0

/-- Connection-growth trend check of `_analyze_haproxy` (lines 240-257). -/
def connection_growth_findings (stats : List HSample) : List Bottleneck :=
  if 10 ≤ stats.length then
    let recent := recent_scur stats
    if nonDecrAdj recent then
      [{ type := .connection_limit
         severity := .medium
         evidence := [("connection_trend", .intList recent)]
         recommendation :=
           "Connection count is growing steadily. Monitor for potential connection leaks or insufficient connection timeout settings."
         affected_component := "amphora/haproxy" }]
    else []
  else []

/-- `BottleneckDetector._analyze_haproxy`: empty input yields nothing;
otherwise the four checks run against the latest sample (trend against the
trailing window), appending their findings in source order. -/
def analyze_haproxy (stats : List HSample) : List Bottleneck :=
  match stats.getLast? with
  | none => []
  | some latest =>
      connection_saturation_findings latest ++ queue_findings latest ++
      error_rate_findings latest ++ connection_growth_findings stats

/-- One system-metrics sample as read by `_analyze_system_metrics` /
`_analyze_host_metrics`. -/
structure SysSample where
  host_type : Option String
  cpu_count : Option Int
  load_1 : Option Rat
  mem_total : Option Int
  mem_free : Option Int
deriving DecidableEq

/-- `sub in s` (Python substring containment). -/
def containsSub (s sub : String) : Bool := decide (sub.data <:+: s.data)

/-- `'amphora' in m.get('host_type', '').lower()` and its `'backend'`
counterpart. -/
def hostTypeContains (m : SysSample) (sub : String) : Bool :=
  containsSub (m.host_type.getD "").toLower sub

/-- CPU checks of `_analyze_host_metrics` (lines 284-328). -/
def cpu_findings (latest : SysSample) (host_type : String) : List Bottleneck :=
  let cpu_count := pyOrI latest.cpu_count 1
  let load := pyOrQ latest.load_1 0
  let cpu_saturation : Rat := (load / (cpu_count : Rat)) * 100
  if CPU_CRITICAL_THRESHOLD ≤ cpu_saturation then
    [{ type := .cpu
       severity := .critical
       evidence := [("load_average", .rat load), ("cpu_count", .int cpu_count),
                    ("saturation_percent", .rat cpu_saturation)]
       recommendation :=
         "Increase " ++ host_type ++ " CPU capacity. For amphora, use a larger flavor or add instances. For backends, scale out the pool."
       affected_component := host_type }]
  else if CPU_HIGH_THRESHOLD ≤ cpu_saturation then
    [{ type := .cpu
       severity := .high
       evidence := [("load_average", .rat load), ("cpu_count", .int cpu_count),
                    ("saturation_percent", .rat cpu_saturation)]
       recommendation :=
         "Monitor " ++ host_type ++ " CPU closely. Consider scaling before saturation."
       affected_component := host_type }]
  else []

/-- Memory checks of `_analyze_host_metrics` (lines 330-373).  `//` is
Python floor division, hence `Int.fdiv`. -/
def memory_findings (latest : SysSample) (host_type : String) : List Bottleneck :=
  let mem_total := pyOrI latest.mem_total 1
  let mem_free := pyOrI latest.mem_free 0
  let mem_free_pct : Rat := ((mem_free : Rat) / (mem_total : Rat)) * 100
  if mem_free_pct < MEMORY_CRITICAL_THRESHOLD then
    [{ type := .memory
       severity := .critical
       evidence := [("total_mb", .int (Int.fdiv mem_total 1024)),
                    ("free_mb", .int (Int.fdiv mem_free 1024)),
                    ("free_percent", .rat mem_free_pct)]
       recommendation :=
         "Increase " ++ host_type ++ " memory immediately. For amphora, reduce SSL session cache or connection limits."
       affected_component := host_type }]
  else if mem_free_pct < MEMORY_LOW_THRESHOLD then
    [{ type := .memory
       severity := .high
       evidence := [("total_mb", .int (Int.fdiv mem_total 1024)),
                    ("free_mb", .int (Int.fdiv mem_free 1024)),
                    ("free_percent", .rat mem_free_pct)]
       recommendation :=
         "Monitor " ++ host_type ++ " memory. Consider scaling before it becomes critical."
       affected_component := host_type }]
  else []

/-- `BottleneckDetector._analyze_host_metrics`. -/
def analyze_host_metrics (metrics : List SysSample) (host_type : String) :
    List Bottleneck :=
  match metrics.getLast? with
  | none => []
  | some latest => cpu_findings latest host_type ++ memory_findings latest host_type

/-- `BottleneckDetector._analyze_system_metrics`: splits samples into
amphora/backend host types by substring match and analyzes each group. -/
def analyze_system_metrics (metrics : List SysSample) : List Bottleneck :=
  if metrics.isEmpty then []
  else
    analyze_host_metrics (metrics.filter fun m => hostTypeContains m "amphora")
        "amphora" ++
    analyze_host_metrics (metrics.filter fun m => hostTypeContains m "backend")
        "backend"

/-- One Locust stats sample as read by `_analyze_locust_stats`. -/
structure LSample where
  num_requests : Option Int
  num_failures : Option Int
  p99 : Option Rat
  p95 : Option Rat
  p90 : Option Rat
deriving DecidableEq

/-- Failure-rate check of `_analyze_locust_stats` (lines 382-403). -/
def failure_rate_findings (latest : LSample) : List Bottleneck :=
  let num_requests := pyOrI latest.num_requests 0
  let num_failures := pyOrI latest.num_failures 0
  if 0 < num_requests then
    let failure_rate : Rat := ((num_failures : Rat) / (num_requests : Rat)) * 100
    if 10 ≤ failure_rate then
      [{ type := .configuration
         severity := .critical
         evidence := [("requests", .int num_requests),
                      ("failures", .int num_failures),
                      ("failure_rate", .rat failure_rate)]
         recommendation :=
           "Investigate failure causes. Check load balancer logs, backend health, and timeout settings."
         affected_component := "load_balancer" }]
    else []
  else []

/-- p99-latency check of `_analyze_locust_stats` (lines 405-422).  The p95
and p90 evidence entries use `latest.get(key, 0)` without the `or` guard;
a present-but-None value (collapsed into `none` here) is modelled as the
get-default 0. -/
def p99_findings (latest : LSample) : List Bottleneck :=
  let p99 := pyOrQ latest.p99 0
  if 5000 < p99 then
    [{ type := .backend
       severity := .high
       evidence := [("p99_ms", .rat p99), ("p95_ms", .rat (latest.p95.getD 0)),
                    ("p90_ms", .rat (latest.p90.getD 0))]
       recommendation :=
         "Backend response times are high. Optimize backend application or add more backend instances."
       affected_component := "backend_servers" }]
  else []

/-- `BottleneckDetector._analyze_locust_stats`. -/
def analyze_locust_stats (stats : List LSample) : List Bottleneck :=
  match stats.getLast? with
  | none => []
  | some latest => failure_rate_findings latest ++ p99_findings latest

/-- The findings accumulated in `self.bottlenecks` by `analyze` before the
final severity sort: the concatenation of the per-category passes in source
order (the cross-correlation pass is a no-op in the source and contributes
nothing).  A `None` or empty category input is skipped by the `if` guards. -/
def detected_findings (haproxy_stats : List HSample)
    (system_metrics : List SysSample) (locust_stats : Option (List LSample)) :
    List Bottleneck :=
  (if haproxy_stats.isEmpty then [] else analyze_haproxy haproxy_stats) ++
  (if system_metrics.isEmpty then [] else analyze_system_metrics system_metrics) ++
  (match locust_stats with
   | none => []
   | some l => if l.isEmpty then [] else analyze_locust_stats l)

/-- The detector's sort comparator: ascending `severity_order` rank.
Python's `list.sort` is stable, so the stable `List.mergeSort` is its exact
extensional model. -/
def sevLe (a b : Bottleneck) : Bool :=
  decide (severity_order a.severity ≤ severity_order b.severity)

/-- `BottleneckDetector.analyze`. -/
def analyze (haproxy_stats : List HSample) (system_metrics : List SysSample)
    (locust_stats : Option (List LSample)) : List Bottleneck :=
  (detected_findings haproxy_stats system_metrics locust_stats).mergeSort sevLe

/-- `BottleneckType.value` strings. -/
def type_value : BType → String
  | .cpu => "cpu"
  | .memory => "memory"
  | .network => "network"
  | .connection_limit => "connection_limit"
  | .backend => "backend"
  | .configuration => "configuration"

/-- `Severity.value` strings. -/
def severity_value : Severity → String
  | .low => "low"
  | .medium => "medium"
  | .high => "high"
  | .critical => "critical"

/-- `d[k] = d.get(k, 0) + 1` on an insertion-ordered dict. -/
def bumpCount (m : List (String × Nat)) (k : String) : List (String × Nat) :=
  match List.lookup k m with
  | some _ => m.map fun kv => if kv.1 = k then (kv.1, kv.2 + 1) else kv
  | none => m ++ [(k, 1)]

structure Summary where
  total_bottlenecks : Nat
  by_type : List (String × Nat)
  by_severity : List (String × Nat)
  critical_count : Nat
  high_count : Nat
  recommendations : List String
deriving DecidableEq

/-- `BottleneckDetector.get_summary`, as a function of the current
`self.bottlenecks` list. -/
def get_summary (bottlenecks : List Bottleneck) : Summary :=
  let by_type := bottlenecks.foldl (fun m b => bumpCount m (type_value b.type)) []
  let by_severity :=
    bottlenecks.foldl (fun m b => bumpCount m (severity_value b.severity)) []
  { total_bottlenecks := bottlenecks.length
    by_type := by_type
    by_severity := by_severity
    critical_count := (List.lookup "critical" by_severity).getD 0
    high_count := (List.lookup "high" by_severity).getD 0
    recommendations := bottlenecks.map fun b => b.recommendation }

/-! ## Sorting infrastructure for the detector claims -/

theorem sevLe_trans : ∀ a b c : Bottleneck, sevLe a b → sevLe b c → sevLe a c := by
  intro a b c hab hbc
  simp only [sevLe, decide_eq_true_eq] at *
  omega

theorem sevLe_total : ∀ a b : Bottleneck, sevLe a b || sevLe b a := by
  intro a b
  simp only [sevLe]
  rcases Nat.le_total (severity_order a.severity) (severity_order b.severity) with h | h
  · simp [h]
  · simp [h]

/-- Stability of `mergeSort` phrased through filters: the sublist of
elements picked by a predicate on which the comparator is constantly true
is unchanged by the sort. -/
theorem filter_mergeSort_stable {α : Type} (le : α → α → Bool)
    (trans : ∀ a b c, le a b → le b c → le a c)
    (total : ∀ a b, le a b || le b a)
    (p : α → Bool) (hp : ∀ a b, p a = true → p b = true → le a b = true)
    (l : List α) : (l.mergeSort le).filter p = l.filter p := by
  have hpair : (l.filter p).Pairwise (fun a b => le a b) := by
    apply List.pairwise_of_forall_mem_list
    intro a ha b hb
    exact hp a b (List.of_mem_filter ha) (List.of_mem_filter hb)
  have hsub : List.Sublist (l.filter p) (l.mergeSort le) :=
    List.sublist_mergeSort trans total hpair (List.filter_sublist l)
  have hidem : (l.filter p).filter p = l.filter p := by
    rw [List.filter_filter]
    simp
  have hsub2 : List.Sublist (l.filter p) ((l.mergeSort le).filter p) := by
    have := hsub.filter p
    rwa [hidem] at this
  have hperm : List.Perm ((l.mergeSort le).filter p) (l.filter p) :=
    (List.mergeSort_perm l le).filter p
  exact (hsub2.eq_of_length (hperm.symm.length_eq)).symm

/-- C4: `analyze` returns the detected findings sorted by severity tier
(CRITICAL, HIGH, MEDIUM, LOW), and the sort is stable: for each severity,
the sequence of findings of that severity equals the sequence detected by
the concatenated per-category passes, in detection order. -/
theorem c4_analyze_sorted_stable (haproxy_stats : List HSample)
    (system_metrics : List SysSample) (locust_stats : Option (List LSample)) :
    (analyze haproxy_stats system_metrics locust_stats).Pairwise
      (fun a b => severity_order a.severity ≤ severity_order b.severity) ∧
    ∀ s : Severity,
      (analyze haproxy_stats system_metrics locust_stats).filter
          (fun b => b.severity == s) =
        (detected_findings haproxy_stats system_metrics locust_stats).filter
          (fun b => b.severity == s) := by
  constructor
  · have h := List.sorted_mergeSort sevLe_trans sevLe_total
      (detected_findings haproxy_stats system_metrics locust_stats)
    exact h.imp fun hab => by
      simpa only [sevLe, decide_eq_true_eq] using hab
  · intro s
    apply filter_mergeSort_stable sevLe sevLe_trans sevLe_total
    intro a b ha hb
    have ha' : a.severity = s := by simpa using ha
    have hb' : b.severity = s := by simpa using hb
    simp [sevLe, ha', hb']

/-! ## C5: point-in-time derived ratios of the aggregator -/

/-- C5: in the aggregator's derived metrics, connection saturation is
`scur/slim*100` over the summed frontend counters when the summed `slim` is
positive and 0 otherwise; the error rate is `ereq/stot*100` when the summed
`stot` is positive and 0 otherwise; and both ratios are independent of the
previous-sample slot (and of the clock). -/
theorem c5_point_in_time_ratios (prev : Option (List (String × Int) × Rat))
    (now : Rat) (stats : List RawStat) :
    ((aggregate_haproxy_stats prev now stats).derived.connection_saturation_pct =
      if 0 < sumCounter (fun s => s.slim) (frontendRows stats) then
        ((sumCounter (fun s => s.scur) (frontendRows stats) : Rat) /
            (sumCounter (fun s => s.slim) (frontendRows stats) : Rat)) * 100
      else 0) ∧
    ((aggregate_haproxy_stats prev now stats).derived.error_rate_pct =
      if 0 < sumCounter (fun s => s.stot) (frontendRows stats) then
        ((sumCounter (fun s => s.ereq) (frontendRows stats) : Rat) /
            (sumCounter (fun s => s.stot) (frontendRows stats) : Rat)) * 100
      else 0) ∧
    (∀ (prev' : Option (List (String × Int) × Rat)) (now' : Rat),
      (aggregate_haproxy_stats prev' now' stats).derived.connection_saturation_pct =
        (aggregate_haproxy_stats prev now stats).derived.connection_saturation_pct ∧
      (aggregate_haproxy_stats prev' now' stats).derived.error_rate_pct =
        (aggregate_haproxy_stats prev now stats).derived.error_rate_pct) :=
  ⟨rfl, rfl, fun _ _ => ⟨rfl, rfl⟩⟩

/-! ## C9: `get_summary` recommendations -/

/-- C9 counterexample: `get_summary` does not deduplicate recommendation
texts — two findings carrying the same recommendation string yield that
string twice in the summary's recommendations list, refuting the claim
that each distinct recommendation appears at most once. -/
theorem c9_counterexample :
    (get_summary
        [{ type := .configuration
           severity := .medium
           evidence := []
           recommendation := "Monitor error rate and investigate causes."
           affected_component := "amphora/haproxy" },
         { type := .configuration
           severity := .medium
           evidence := []
           recommendation := "Monitor error rate and investigate causes."
           affected_component := "amphora/haproxy" }]).recommendations.count
      "Monitor error rate and investigate causes." = 2 := by decide

/-- C9 (amended): the summary's recommendations list has one entry per
finding, in detection order, keeping duplicates: each recommendation string
occurs exactly as many times as there are findings carrying it, and the
list is exactly the findings' recommendations in order. -/
theorem c9_amended_recommendations (bottlenecks : List Bottleneck) (r : String) :
    (get_summary bottlenecks).recommendations =
      bottlenecks.map (fun b => b.recommendation) ∧
    (get_summary bottlenecks).recommendations.count r =
      bottlenecks.countP (fun b => b.recommendation == r) := by
  refine ⟨rfl, ?_⟩
  simp only [get_summary, List.count, List.countP_map]
  rfl

/-! ## C10: missing memory data is diagnosed as critical -/

/-- Selects memory-pressure findings. -/
def is_memory_finding (b : Bottleneck) : Bool :=
  match b.type with
  | .memory => true
  | _ => false

/-- C10: when the latest sample for a host type has no `mem_total` and no
`mem_free` (both absent/None), `_analyze_host_metrics` substitutes total 1
and free 0, computes 0% free memory, and emits exactly one memory finding:
a CRITICAL memory-pressure finding with `free_percent` 0 for that host
type, rather than no finding. -/
theorem c10_missing_memory_critical (metrics : List SysSample)
    (host_type : String) (latest : SysSample)
    (hl : metrics.getLast? = some latest)
    (ht : latest.mem_total = none) (hf : latest.mem_free = none) :
    (analyze_host_metrics metrics host_type).filter is_memory_finding =
      [{ type := .memory
         severity := .critical
         evidence := [("total_mb", .int 0), ("free_mb", .int 0),
                      ("free_percent", .rat 0)]
         recommendation :=
           "Increase " ++ host_type ++ " memory immediately. For amphora, reduce SSL session cache or connection limits."
         affected_component := host_type }] := by
  unfold analyze_host_metrics
  rw [hl]
  have hcpu : (cpu_findings latest host_type).filter is_memory_finding = [] := by
    unfold cpu_findings
    dsimp only
    split
    · rfl
    · split
      · rfl
      · rfl
  have hmem : memory_findings latest host_type =
      [{ type := .memory
         severity := .critical
         evidence := [("total_mb", .int 0), ("free_mb", .int 0),
                      ("free_percent", .rat 0)]
         recommendation :=
           "Increase " ++ host_type ++ " memory immediately. For amphora, reduce SSL session cache or connection limits."
         affected_component := host_type }] := by
    unfold memory_findings
    rw [ht, hf]
    norm_num [pyOrI, MEMORY_CRITICAL_THRESHOLD]
    decide
  simp only [List.filter_append, hcpu, hmem]
  rfl

/-- Concrete instantiation of `c10_missing_memory_critical`: a single
amphora sample with no memory fields at all. -/
theorem c10_missing_memory_critical_witness :
    (analyze_host_metrics [⟨some "amphora", none, none, none, none⟩]
        "amphora").filter is_memory_finding =
      [{ type := .memory
         severity := .critical
         evidence := [("total_mb", .int 0), ("free_mb", .int 0),
                      ("free_percent", .rat 0)]
         recommendation :=
           "Increase " ++ "amphora" ++ " memory immediately. For amphora, reduce SSL session cache or connection limits."
         affected_component := "amphora" }] :=
  c10_missing_memory_critical [⟨some "amphora", none, none, none, none⟩]
    "amphora" ⟨some "amphora", none, none, none, none⟩ rfl rfl rfl

/-! ## C2 and C6: saturation and growth findings of the detector -/

/-- Selects connection-saturation findings: the two findings emitted by the
saturation branch are the only ones of type `connection_limit` carrying a
`saturation_percent` evidence entry. -/
def is_sat_finding (b : Bottleneck) : Bool :=
  match b.type with
  | .connection_limit => (List.lookup "saturation_percent" b.evidence).isSome
  | _ => false

/-- Selects connection-growth findings: type `connection_limit` with a
`connection_trend` evidence entry. -/
def is_growth_finding (b : Bottleneck) : Bool :=
  match b.type with
  | .connection_limit => (List.lookup "connection_trend" b.evidence).isSome
  | _ => false

theorem is_sat_finding_false_of_type (b : Bottleneck)
    (h : b.type ≠ BType.connection_limit) : is_sat_finding b = false := by
  cases htype : b.type <;>
    first
      | exact absurd htype h
      | simp [is_sat_finding, htype]

theorem is_growth_finding_false_of_type (b : Bottleneck)
    (h : b.type ≠ BType.connection_limit) : is_growth_finding b = false := by
  cases htype : b.type <;>
    first
      | exact absurd htype h
      | simp [is_growth_finding, htype]

theorem type_mem_queue (latest : HSample) :
    ∀ b ∈ queue_findings latest, b.type = BType.backend := by
  intro b hb
  unfold queue_findings at hb
  dsimp only at hb
  split at hb
  · simp at hb; subst hb; rfl
  · simp at hb

theorem type_mem_error (latest : HSample) :
    ∀ b ∈ error_rate_findings latest, b.type = BType.configuration := by
  intro b hb
  unfold error_rate_findings at hb
  dsimp only at hb
  split at hb
  · split at hb
    · simp at hb; subst hb; rfl
    · split at hb
      · simp at hb; subst hb; rfl
      · simp at hb
  · simp at hb

theorem type_mem_cpu (latest : SysSample) (host_type : String) :
    ∀ b ∈ cpu_findings latest host_type, b.type = BType.cpu := by
  intro b hb
  unfold cpu_findings at hb
  dsimp only at hb
  split at hb
  · simp at hb; subst hb; rfl
  · split at hb
    · simp at hb; subst hb; rfl
    · simp at hb

theorem type_mem_memory (latest : SysSample) (host_type : String) :
    ∀ b ∈ memory_findings latest host_type, b.type = BType.memory := by
  intro b hb
  unfold memory_findings at hb
  dsimp only at hb
  split at hb
  · simp at hb; subst hb; rfl
  · split at hb
    · simp at hb; subst hb; rfl
    · simp at hb

theorem type_mem_failure (latest : LSample) :
    ∀ b ∈ failure_rate_findings latest, b.type = BType.configuration := by
  intro b hb
  unfold failure_rate_findings at hb
  dsimp only at hb
  split at hb
  · split at hb
    · simp at hb; subst hb; rfl
    · simp at hb
  · simp at hb

theorem type_mem_p99 (latest : LSample) :
    ∀ b ∈ p99_findings latest, b.type = BType.backend := by
  intro b hb
  unfold p99_findings at hb
  dsimp only at hb
  split at hb
  · simp at hb; subst hb; rfl
  · simp at hb

theorem not_cl_host (metrics : List SysSample) (host_type : String) :
    ∀ b ∈ analyze_host_metrics metrics host_type,
      b.type ≠ BType.connection_limit := by
  intro b hb
  unfold analyze_host_metrics at hb
  split at hb
  · simp at hb
  · rcases List.mem_append.mp hb with h1 | h1
    · rw [type_mem_cpu _ _ b h1]; decide
    · rw [type_mem_memory _ _ b h1]; decide

theorem not_cl_system (sm : List SysSample) :
    ∀ b ∈ analyze_system_metrics sm, b.type ≠ BType.connection_limit := by
  intro b hb
  unfold analyze_system_metrics at hb
  split at hb
  · simp at hb
  · rcases List.mem_append.mp hb with h1 | h1
    · exact not_cl_host _ _ b h1
    · exact not_cl_host _ _ b h1

theorem not_cl_locust (l : List LSample) :
    ∀ b ∈ analyze_locust_stats l, b.type ≠ BType.connection_limit := by
  intro b hb
  unfold analyze_locust_stats at hb
  split at hb
  · simp at hb
  · rcases List.mem_append.mp hb with h1 | h1
    · rw [type_mem_failure _ b h1]; decide
    · rw [type_mem_p99 _ b h1]; decide

theorem growth_false_on_sat (latest : HSample) :
    ∀ b ∈ connection_saturation_findings latest, is_growth_finding b = false := by
  intro b hb
  unfold connection_saturation_findings at hb
  dsimp only at hb
  split at hb
  · split at hb
    · simp at hb; subst hb; rfl
    · split at hb
      · simp at hb; subst hb; rfl
      · simp at hb
  · simp at hb

theorem sat_false_on_growth (stats : List HSample) :
    ∀ b ∈ connection_growth_findings stats, is_sat_finding b = false := by
  intro b hb
  unfold connection_growth_findings at hb
  dsimp only at hb
  split at hb
  · split at hb
    · simp at hb; subst hb; rfl
    · simp at hb
  · simp at hb

theorem growth_severity (stats : List HSample) :
    ∀ b ∈ connection_growth_findings stats, b.severity = Severity.medium := by
  intro b hb
  unfold connection_growth_findings at hb
  dsimp only at hb
  split at hb
  · split at hb
    · simp at hb; subst hb; rfl
    · simp at hb
  · simp at hb

theorem countP_sat_queue (latest : HSample) :
    (queue_findings latest).countP is_sat_finding = 0 :=
  List.countP_eq_zero.mpr fun b hb => by
    simp [is_sat_finding_false_of_type b (by rw [type_mem_queue latest b hb]; decide)]

theorem countP_sat_error (latest : HSample) :
    (error_rate_findings latest).countP is_sat_finding = 0 :=
  List.countP_eq_zero.mpr fun b hb => by
    simp [is_sat_finding_false_of_type b (by rw [type_mem_error latest b hb]; decide)]

theorem countP_sat_growth (stats : List HSample) :
    (connection_growth_findings stats).countP is_sat_finding = 0 :=
  List.countP_eq_zero.mpr fun b hb => by
    simp [sat_false_on_growth stats b hb]

theorem countP_sat_system (sm : List SysSample) :
    (analyze_system_metrics sm).countP is_sat_finding = 0 :=
  List.countP_eq_zero.mpr fun b hb => by
    simp [is_sat_finding_false_of_type b (not_cl_system sm b hb)]

theorem countP_sat_locust (l : List LSample) :
    (analyze_locust_stats l).countP is_sat_finding = 0 :=
  List.countP_eq_zero.mpr fun b hb => by
    simp [is_sat_finding_false_of_type b (not_cl_locust l b hb)]

theorem countP_growth_sat (latest : HSample) :
    (connection_saturation_findings latest).countP is_growth_finding = 0 :=
  List.countP_eq_zero.mpr fun b hb => by
    simp [growth_false_on_sat latest b hb]

theorem countP_growth_queue (latest : HSample) :
    (queue_findings latest).countP is_growth_finding = 0 :=
  List.countP_eq_zero.mpr fun b hb => by
    simp [is_growth_finding_false_of_type b (by rw [type_mem_queue latest b hb]; decide)]

theorem countP_growth_error (latest : HSample) :
    (error_rate_findings latest).countP is_growth_finding = 0 :=
  List.countP_eq_zero.mpr fun b hb => by
    simp [is_growth_finding_false_of_type b (by rw [type_mem_error latest b hb]; decide)]

theorem countP_growth_system (sm : List SysSample) :
    (analyze_system_metrics sm).countP is_growth_finding = 0 :=
  List.countP_eq_zero.mpr fun b hb => by
    simp [is_growth_finding_false_of_type b (not_cl_system sm b hb)]

theorem countP_growth_locust (l : List LSample) :
    (analyze_locust_stats l).countP is_growth_finding = 0 :=
  List.countP_eq_zero.mpr fun b hb => by
    simp [is_growth_finding_false_of_type b (not_cl_locust l b hb)]

/-- The system-metrics and locust passes contribute nothing to a count of
findings they cannot produce: the count over `detected_findings` collapses
to the count over the (guarded) haproxy pass. -/
theorem countP_detected (p : Bottleneck → Bool) (h : List HSample)
    (sm : List SysSample) (ls : Option (List LSample))
    (hsm : (analyze_system_metrics sm).countP p = 0)
    (hls : ∀ l, (analyze_locust_stats l).countP p = 0) :
    (detected_findings h sm ls).countP p =
      (if h.isEmpty then [] else analyze_haproxy h).countP p := by
  unfold detected_findings
  rw [List.countP_append, List.countP_append]
  have h1 : (if sm.isEmpty then ([] : List Bottleneck)
      else analyze_system_metrics sm).countP p = 0 := by
    split
    · rfl
    · exact hsm
  have h2 : (match ls with
      | none => ([] : List Bottleneck)
      | some l => if l.isEmpty then [] else analyze_locust_stats l).countP p
        = 0 := by
    rcases ls with _ | l
    · rfl
    · dsimp only
      split
      · rfl
      · exact hls l
  rw [h1, h2]
  omega

theorem isEmpty_false_of_getLast? {α : Type} {l : List α} {a : α}
    (h : l.getLast? = some a) : l.isEmpty = false := by
  cases l with
  | nil => simp at h
  | cons x xs => rfl

/-- C2: the connection-saturation findings of `analyze` are determined by
the latest HAProxy sample: with `slim > 0` and saturation ≥ 90 there is
exactly one such finding and it is CRITICAL with the exact saturation
percentage in its evidence; with 70 ≤ saturation < 90 exactly one and it is
HIGH; with `slim ≤ 0` or saturation < 70 there is none. -/
theorem c2_connection_saturation (h : List HSample) (sm : List SysSample)
    (ls : Option (List LSample)) (latest : HSample)
    (hl : h.getLast? = some latest) :
    ((0 < pyOrI latest.slim 0 ∧
        CONNECTION_SATURATION_CRITICAL ≤ satPct latest) →
      ((analyze h sm ls).countP is_sat_finding = 1 ∧
        ∀ b ∈ analyze h sm ls, is_sat_finding b = true →
          b.severity = Severity.critical ∧
          List.lookup "saturation_percent" b.evidence
            = some (.rat (satPct latest)))) ∧
    ((0 < pyOrI latest.slim 0 ∧ CONNECTION_SATURATION_HIGH ≤ satPct latest ∧
        satPct latest < CONNECTION_SATURATION_CRITICAL) →
      ((analyze h sm ls).countP is_sat_finding = 1 ∧
        ∀ b ∈ analyze h sm ls, is_sat_finding b = true →
          b.severity = Severity.high ∧
          List.lookup "saturation_percent" b.evidence
            = some (.rat (satPct latest)))) ∧
    ((pyOrI latest.slim 0 ≤ 0 ∨ satPct latest < CONNECTION_SATURATION_HIGH) →
      (analyze h sm ls).countP is_sat_finding = 0) := by
  have hne := isEmpty_false_of_getLast? hl
  have hcount : (analyze h sm ls).countP is_sat_finding
      = (connection_saturation_findings latest).countP is_sat_finding := by
    unfold analyze
    rw [(List.mergeSort_perm _ sevLe).countP_eq,
      countP_detected is_sat_finding h sm ls (countP_sat_system sm)
        countP_sat_locust,
      if_neg (by simp [hne])]
    unfold analyze_haproxy
    rw [hl]
    dsimp only
    rw [List.countP_append, List.countP_append, List.countP_append,
      countP_sat_queue, countP_sat_error, countP_sat_growth]
    omega
  have hmem : ∀ b ∈ analyze h sm ls, is_sat_finding b = true →
      b ∈ connection_saturation_findings latest := by
    intro b hb hbs
    unfold analyze at hb
    rw [List.mem_mergeSort] at hb
    unfold detected_findings at hb
    rcases List.mem_append.mp hb with hb12 | hbl
    · rcases List.mem_append.mp hb12 with hb1 | hbsys
      · rw [if_neg (by simp [hne])] at hb1
        unfold analyze_haproxy at hb1
        rw [hl] at hb1
        dsimp only at hb1
        rcases List.mem_append.mp hb1 with hsqe | hg
        · rcases List.mem_append.mp hsqe with hsq | he
          · rcases List.mem_append.mp hsq with hsat | hq
            · exact hsat
            · exact absurd hbs (by
                simp [is_sat_finding_false_of_type b
                  (by rw [type_mem_queue latest b hq]; decide)])
          · exact absurd hbs (by
              simp [is_sat_finding_false_of_type b
                (by rw [type_mem_error latest b he]; decide)])
        · exact absurd hbs (by simp [sat_false_on_growth h b hg])
      · split at hbsys
        · simp at hbsys
        · exact absurd hbs (by
            simp [is_sat_finding_false_of_type b (not_cl_system sm b hbsys)])
    · rcases ls with _ | l
      · simp at hbl
      · dsimp only at hbl
        split at hbl
        · simp at hbl
        · exact absurd hbs (by
            simp [is_sat_finding_false_of_type b (not_cl_locust l b hbl)])
  refine ⟨?_, ?_, ?_⟩
  · rintro ⟨hslim, hsat⟩
    have hs : connection_saturation_findings latest =
        [{ type := .connection_limit
           severity := .critical
           evidence := [("current_connections", .int (pyOrI latest.scur 0)),
                        ("max_connections", .int (pyOrI latest.slim 0)),
                        ("saturation_percent", .rat (satPct latest))]
           recommendation :=
             "Increase listener connection_limit in Octavia. Maximum supported is 1,000,000. Also consider adding more amphora instances."
           affected_component := "amphora/haproxy" }] := by
      unfold connection_saturation_findings
      dsimp only
      rw [if_pos hslim, if_pos hsat]
    refine ⟨by rw [hcount, hs]; rfl, ?_⟩
    intro b hb hbs
    have hbmem := hmem b hb hbs
    rw [hs] at hbmem
    simp at hbmem
    subst hbmem
    exact ⟨rfl, rfl⟩
  · rintro ⟨hslim, hsat70, hsat90⟩
    have hs : connection_saturation_findings latest =
        [{ type := .connection_limit
           severity := .high
           evidence := [("current_connections", .int (pyOrI latest.scur 0)),
                        ("max_connections", .int (pyOrI latest.slim 0)),
                        ("saturation_percent", .rat (satPct latest))]
           recommendation :=
             "Consider increasing connection_limit before it becomes critical. Current limit: {slim}"
           affected_component := "amphora/haproxy" }] := by
      unfold connection_saturation_findings
      dsimp only
      rw [if_pos hslim, if_neg (not_le.mpr hsat90), if_pos hsat70]
    refine ⟨by rw [hcount, hs]; rfl, ?_⟩
    intro b hb hbs
    have hbmem := hmem b hb hbs
    rw [hs] at hbmem
    simp at hbmem
    subst hbmem
    exact ⟨rfl, rfl⟩
  · intro hcase
    rcases hcase with hslim | hsat
    · have hs : connection_saturation_findings latest = [] := by
        unfold connection_saturation_findings
        dsimp only
        rw [if_neg (not_lt.mpr hslim)]
      rw [hcount, hs]
      rfl
    · by_cases hslim : 0 < pyOrI latest.slim 0
      · have hlt : satPct latest < CONNECTION_SATURATION_CRITICAL :=
          lt_of_lt_of_le hsat (by
            norm_num [CONNECTION_SATURATION_HIGH, CONNECTION_SATURATION_CRITICAL])
        have hs : connection_saturation_findings latest = [] := by
          unfold connection_saturation_findings
          dsimp only
          rw [if_pos hslim, if_neg (not_le.mpr hlt), if_neg (not_le.mpr hsat)]
        rw [hcount, hs]
        rfl
      · have hs : connection_saturation_findings latest = [] := by
          unfold connection_saturation_findings
          dsimp only
          rw [if_neg hslim]
        rw [hcount, hs]
        rfl

/-- Concrete instantiations of `c2_connection_saturation`: with
`scur=950, slim=1000` the single saturation finding is CRITICAL at exactly
95%; with `scur=750, slim=1000` it is HIGH. -/
theorem c2_connection_saturation_witness :
    ((analyze [⟨some 950, some 1000, none, none, none⟩] [] none).countP
        is_sat_finding = 1 ∧
      ∀ b ∈ analyze [⟨some 950, some 1000, none, none, none⟩] [] none,
        is_sat_finding b = true →
          b.severity = Severity.critical ∧
          List.lookup "saturation_percent" b.evidence
            = some (.rat (satPct ⟨some 950, some 1000, none, none, none⟩))) ∧
    ((analyze [⟨some 750, some 1000, none, none, none⟩] [] none).countP
        is_sat_finding = 1 ∧
      ∀ b ∈ analyze [⟨some 750, some 1000, none, none, none⟩] [] none,
        is_sat_finding b = true →
          b.severity = Severity.high ∧
          List.lookup "saturation_percent" b.evidence
            = some (.rat (satPct ⟨some 750, some 1000, none, none, none⟩))) ∧
    satPct ⟨some 950, some 1000, none, none, none⟩ = 95 :=
  ⟨(c2_connection_saturation [⟨some 950, some 1000, none, none, none⟩] [] none
      ⟨some 950, some 1000, none, none, none⟩ rfl).1
    ⟨by decide, by norm_num [satPct, pyOrI, CONNECTION_SATURATION_CRITICAL]⟩,
   (c2_connection_saturation [⟨some 750, some 1000, none, none, none⟩] [] none
      ⟨some 750, some 1000, none, none, none⟩ rfl).2.1
    ⟨by decide, by norm_num [satPct, pyOrI, CONNECTION_SATURATION_HIGH],
     by norm_num [satPct, pyOrI, CONNECTION_SATURATION_CRITICAL]⟩,
   by norm_num [satPct, pyOrI]⟩

theorem countP_growth_growth (stats : List HSample) :
    (connection_growth_findings stats).countP is_growth_finding =
      if 10 ≤ stats.length then
        (if nonDecrAdj (recent_scur stats) then 1 else 0)
      else 0 := by
  unfold connection_growth_findings
  dsimp only
  split
  · split
    · rfl
    · rfl
  · rfl

/-- C6: `analyze` emits exactly one connection-growth finding when the
series has at least 10 samples and the trailing 10 session counts are
non-decreasing at every consecutive step, and none otherwise — for any
system/locust inputs and regardless of the other HAProxy fields (absolute
level, saturation); every connection-growth finding has severity MEDIUM. -/
theorem c6_connection_growth (h : List HSample) (sm : List SysSample)
    (ls : Option (List LSample)) :
    ((analyze h sm ls).countP is_growth_finding =
      if 10 ≤ h.length then
        (if nonDecrAdj (recent_scur h) then 1 else 0)
      else 0) ∧
    ∀ b ∈ analyze h sm ls, is_growth_finding b = true →
      b.severity = Severity.medium := by
  constructor
  · have hd : (analyze h sm ls).countP is_growth_finding
        = (if h.isEmpty then [] else analyze_haproxy h).countP
            is_growth_finding := by
      unfold analyze
      rw [(List.mergeSort_perm _ sevLe).countP_eq]
      exact countP_detected is_growth_finding h sm ls
        (countP_growth_system sm) countP_growth_locust
    rw [hd]
    rcases h with _ | ⟨x, xs⟩
    · simp
    · rcases hgl : (x :: xs).getLast? with _ | latest
      · simp at hgl
      · rw [if_neg (by simp)]
        unfold analyze_haproxy
        rw [hgl]
        dsimp only
        rw [List.countP_append, List.countP_append, List.countP_append,
          countP_growth_sat, countP_growth_queue, countP_growth_error,
          countP_growth_growth]
        omega
  · intro b hb hbg
    unfold analyze at hb
    rw [List.mem_mergeSort] at hb
    unfold detected_findings at hb
    rcases List.mem_append.mp hb with hb12 | hbl
    · rcases List.mem_append.mp hb12 with hb1 | hbsys
      · split at hb1
        · simp at hb1
        · unfold analyze_haproxy at hb1
          rcases hgl : h.getLast? with _ | latest
          · rw [hgl] at hb1
            simp at hb1
          · rw [hgl] at hb1
            dsimp only at hb1
            rcases List.mem_append.mp hb1 with hsqe | hg
            · rcases List.mem_append.mp hsqe with hsq | he
              · rcases List.mem_append.mp hsq with hsat | hq
                · exact absurd hbg (by simp [growth_false_on_sat latest b hsat])
                · exact absurd hbg (by
                    simp [is_growth_finding_false_of_type b
                      (by rw [type_mem_queue latest b hq]; decide)])
              · exact absurd hbg (by
                  simp [is_growth_finding_false_of_type b
                    (by rw [type_mem_error latest b he]; decide)])
            · exact growth_severity h b hg
      · split at hbsys
        · simp at hbsys
        · exact absurd hbg (by
            simp [is_growth_finding_false_of_type b (not_cl_system sm b hbsys)])
    · rcases ls with _ | l
      · simp at hbl
      · dsimp only at hbl
        split at hbl
        · simp at hbl
        · exact absurd hbg (by
            simp [is_growth_finding_false_of_type b (not_cl_locust l b hbl)])

/-- A 10-sample series with strictly non-decreasing session counts and no
other populated fields. -/
def growth_series : List HSample :=
  [⟨some 1, none, none, none, none⟩, ⟨some 2, none, none, none, none⟩,
   ⟨some 3, none, none, none, none⟩, ⟨some 4, none, none, none, none⟩,
   ⟨some 5, none, none, none, none⟩, ⟨some 6, none, none, none, none⟩,
   ⟨some 7, none, none, none, none⟩, ⟨some 8, none, none, none, none⟩,
   ⟨some 9, none, none, none, none⟩, ⟨some 10, none, none, none, none⟩]

/-- The MEDIUM connection-growth finding for `growth_series`. -/
def growth_series_finding : Bottleneck :=
  { type := .connection_limit
    severity := .medium
    evidence := [("connection_trend",
      .intList [1, 2, 3, 4, 5, 6, 7, 8, 9, 10])]
    recommendation :=
      "Connection count is growing steadily. Monitor for potential connection leaks or insufficient connection timeout settings."
    affected_component := "amphora/haproxy" }

/-- Concrete instantiation of `c6_connection_growth` on `growth_series`. -/
theorem c6_connection_growth_witness :
    (analyze growth_series [] none).countP is_growth_finding = 1 ∧
    growth_series_finding ∈ analyze growth_series [] none ∧
    growth_series_finding.severity = Severity.medium := by
  have hc := c6_connection_growth growth_series [] none
  have hmem : growth_series_finding ∈ analyze growth_series [] none := by
    unfold analyze
    rw [List.mem_mergeSort]
    decide
  refine ⟨?_, hmem, ?_⟩
  · rw [hc.1]
    decide
  · exact hc.2 growth_series_finding hmem (by decide)

/-! ## Scheduler: `CollectionScheduler._collection_loop`
(`src/collectors/aggregator.py` lines 269-292)

One iteration of the `while not stop` loop is modelled as a pure function
of the tick's observable events: the outcome of `collector.collect()`
(value or raised exception), the outcome of `store_func(data)` and the
elapsed wall-clock time of the tick body.  The `try` block catches any
exception from either call, logs it, and waits the full `interval`; the
success path stores the sample and waits `max(0, interval - elapsed)`.
The loop itself (exited only by the stop event) processes every tick
independently of the previous ticks' outcomes. -/

structure TickInput (α : Type) where
  collectResult : Except String α
  storeResult : α → Except String Unit
  elapsed : Rat

structure TickOutcome (α : Type) where
  stored : Option α
  log_error : Option String
  sleep_time : Rat

/-- One iteration of `_collection_loop`'s body. -/
def collection_tick {α : Type} (interval : Rat) (t : TickInput α) :
    TickOutcome α :=
  match t.collectResult with
  | .error e => { stored := none, log_error := some e, sleep_time := interval }
  | .ok d =>
    match t.storeResult d with
    | .error e => { stored := none, log_error := some e, sleep_time := interval }
    | .ok _ =>
      { stored := some d
        log_error := none
        sleep_time := max 0 (interval - t.elapsed) }

/-- Whether the tick's `try` block raises (from `collect()` or from the
store callback). -/
def tick_fails {α : Type} (t : TickInput α) : Bool :=
  match t.collectResult with
  | .error _ => true
  | .ok d =>
    match t.storeResult d with
    | .error _ => true
    | .ok _ => false

/-- The collection loop over a finite schedule of ticks: every tick is
processed, regardless of earlier failures. -/
def collection_loop {α : Type} (interval : Rat) (ticks : List (TickInput α)) :
    List (TickOutcome α) :=
  ticks.map (collection_tick interval)

/-- C7: a tick on which `collect()` or the store callback raises does not
terminate the loop: the loop produces one outcome per tick and continues
past the failing tick to the rest of the schedule, and on a failing tick
the exception is logged and no sample is stored. -/
theorem c7_failure_isolated {α : Type} (interval : Rat)
    (ticks : List (TickInput α)) :
    (collection_loop interval ticks).length = ticks.length ∧
    (∀ (t : TickInput α) (rest : List (TickInput α)),
      collection_loop interval (t :: rest) =
        collection_tick interval t :: collection_loop interval rest) ∧
    ∀ t ∈ ticks, tick_fails t = true →
      (collection_tick interval t).stored = none ∧
      (collection_tick interval t).log_error.isSome = true ∧
      collection_tick interval t ∈ collection_loop interval ticks := by
  refine ⟨List.length_map _ _, fun _ _ => rfl, ?_⟩
  intro t ht hf
  refine ⟨?_, ?_, List.mem_map_of_mem _ ht⟩
  · rcases hc : t.collectResult with e | d
    · simp [collection_tick, hc]
    · rcases hs : t.storeResult d with e | u
      · simp [collection_tick, hc, hs]
      · simp [tick_fails, hc, hs] at hf
  · rcases hc : t.collectResult with e | d
    · simp [collection_tick, hc]
    · rcases hs : t.storeResult d with e | u
      · simp [collection_tick, hc, hs]
      · simp [tick_fails, hc, hs] at hf

/-- Concrete instantiation of `c7_failure_isolated`: a schedule of one
failing tick (collector raises) followed by one succeeding tick. -/
theorem c7_failure_isolated_witness :
    (collection_loop 5
        [(⟨Except.error "lb down", fun _ => Except.ok (), 3⟩ : TickInput Int),
         ⟨Except.ok 42, fun _ => Except.ok (), 1⟩]).length = 2 ∧
    (collection_tick 5
        (⟨Except.error "lb down", fun _ => Except.ok (), 3⟩ :
          TickInput Int)).stored = none ∧
    (collection_tick 5
        (⟨Except.error "lb down", fun _ => Except.ok (), 3⟩ :
          TickInput Int)).log_error.isSome = true := by
  have hc := c7_failure_isolated (α := Int) 5
    [⟨Except.error "lb down", fun _ => Except.ok (), 3⟩,
     ⟨Except.ok 42, fun _ => Except.ok (), 1⟩]
  have hmem := hc.2.2 ⟨Except.error "lb down", fun _ => Except.ok (), 3⟩
    (List.mem_cons_self _ _) rfl
  exact ⟨hc.1, hmem.1, hmem.2.1⟩

/-- C8 counterexample: the claim that the failure path sleeps
`max(0, interval - elapsed)` like the success path is false — a failing
tick with interval 5 and elapsed 3 sleeps the full 5 seconds, not the
remaining 2. -/
theorem c8_counterexample :
    (collection_tick 5
        (⟨Except.error "lb down", fun _ => Except.ok (), 3⟩ :
          TickInput Int)).sleep_time = 5 ∧
    max 0 ((5 : Rat) - 3) = 2 ∧ (5 : Rat) ≠ 2 := by
  refine ⟨rfl, ?_, by norm_num⟩
  have h2 : (5 : Rat) - 3 = 2 := by norm_num
  rw [h2, max_eq_right (by norm_num : (0 : Rat) ≤ 2)]

/-- C8 (amended): on a successful tick the unit sleeps
`max(0, interval - elapsed)` (so an overrunning tick gets a zero-length
sleep); on a failing tick it waits the full `interval`, regardless of the
elapsed time. -/
theorem c8_amended_sleep {α : Type} (interval : Rat) (t : TickInput α) :
    (tick_fails t = false →
      (collection_tick interval t).sleep_time =
        max 0 (interval - t.elapsed)) ∧
    (tick_fails t = true →
      (collection_tick interval t).sleep_time = interval) := by
  constructor <;> intro hf
  · rcases hc : t.collectResult with e | d
    · simp [tick_fails, hc] at hf
    · rcases hs : t.storeResult d with e | u
      · simp [tick_fails, hc, hs] at hf
      · simp [collection_tick, hc, hs]
  · rcases hc : t.collectResult with e | d
    · simp [collection_tick, hc]
    · rcases hs : t.storeResult d with e | u
      · simp [collection_tick, hc, hs]
      · simp [tick_fails, hc, hs] at hf

/-- Concrete instantiation of `c8_amended_sleep`: a successful tick with
elapsed 3 of a 5-second interval sleeps `max 0 (5 - 3)`; a failing one
sleeps 5. -/
theorem c8_amended_sleep_witness :
    (collection_tick 5
        (⟨Except.ok 42, fun _ => Except.ok (), 3⟩ : TickInput Int)).sleep_time
      = max 0 ((5 : Rat) - 3) ∧
    (collection_tick 5
        (⟨Except.error "lb down", fun _ => Except.ok (), 3⟩ :
          TickInput Int)).sleep_time = 5 :=
  ⟨(c8_amended_sleep 5 _).1 rfl, (c8_amended_sleep 5 _).2 rfl⟩

/-! ## Store: `MetricsStorage.store_haproxy_stats` / `get_haproxy_stats`
(`src/collectors/storage.py` lines 200-252 and 349-371)

The `haproxy_stats` table is a list of rows in insertion order.  A row
carries `run_id` and `timestamp` (ISO strings ordered like numbers;
modelled as `Nat`); the remaining marshalled stat columns and the raw JSON
payload do not participate in filtering or ordering and are kept opaque in
a payload field.  `store_haproxy_stats` inserts one row per stat dict, all
with the single timestamp taken at the start of the call; the `SELECT ...
WHERE run_id = ? [AND timestamp >= ?][AND timestamp <= ?] ORDER BY
timestamp` of `get_haproxy_stats` is a filter followed by a sort by
timestamp (SQLite leaves the relative order of equal timestamps
unspecified; the stable sort used here is one admissible refinement, and
the claims proved below depend only on the sorted-permutation property). -/

structure HaproxyRow (α : Type) where
  run_id : Nat
  timestamp : Nat
  payload : α
deriving DecidableEq

def store_haproxy_stats {α : Type} (run_id : Nat) (timestamp : Nat)
    (stats : List α) (table : List (HaproxyRow α)) : List (HaproxyRow α) :=
  table ++ stats.map fun s =>
    { run_id := run_id, timestamp := timestamp, payload := s }

/-- The `WHERE` clause of `get_haproxy_stats`. -/
def matchesQuery {α : Type} (run_id : Nat) (start_time end_time : Option Nat)
    (r : HaproxyRow α) : Bool :=
  (r.run_id == run_id) &&
  (match start_time with
   | none => true
   | some st => decide (st ≤ r.timestamp)) &&
  (match end_time with
   | none => true
   | some et => decide (r.timestamp ≤ et))

def tsLe {α : Type} (a b : HaproxyRow α) : Bool :=
  decide (a.timestamp ≤ b.timestamp)

def get_haproxy_stats {α : Type} (run_id : Nat)
    (start_time end_time : Option Nat) (table : List (HaproxyRow α)) :
    List (HaproxyRow α) :=
  (table.filter (matchesQuery run_id start_time end_time)).mergeSort tsLe

/-- A sequence of `store_haproxy_stats` calls, each `(run_id, timestamp,
stats)`, applied to a table. -/
def apply_writes {α : Type} (writes : List (Nat × Nat × List α))
    (table : List (HaproxyRow α)) : List (HaproxyRow α) :=
  writes.foldl (fun t w => store_haproxy_stats w.1 w.2.1 w.2.2 t) table

/-- The rows inserted for a given run by a sequence of writes, in write
order. -/
def rows_for {α : Type} (run_id : Nat) (writes : List (Nat × Nat × List α)) :
    List (HaproxyRow α) :=
  writes.flatMap fun w =>
    if w.1 = run_id then
      w.2.2.map fun s => { run_id := run_id, timestamp := w.2.1, payload := s }
    else []

theorem filter_apply_writes {α : Type} (run_id : Nat) :
    ∀ (writes : List (Nat × Nat × List α)) (init : List (HaproxyRow α)),
      (apply_writes writes init).filter (matchesQuery run_id none none) =
        init.filter (matchesQuery run_id none none) ++ rows_for run_id writes := by
  intro writes
  induction writes with
  | nil => intro init; simp [apply_writes, rows_for]
  | cons w ws ih =>
    intro init
    have hstep : apply_writes (w :: ws) init =
        apply_writes ws (store_haproxy_stats w.1 w.2.1 w.2.2 init) := rfl
    rw [hstep, ih]
    unfold store_haproxy_stats
    rw [List.filter_append]
    have hbatch : (w.2.2.map fun s =>
        ({ run_id := w.1, timestamp := w.2.1, payload := s } :
          HaproxyRow α)).filter (matchesQuery run_id none none) =
        if w.1 = run_id then
          w.2.2.map fun s =>
            ({ run_id := run_id, timestamp := w.2.1, payload := s } :
              HaproxyRow α)
        else [] := by
      by_cases hw : w.1 = run_id
      · subst hw
        rw [if_pos rfl]
        apply List.filter_eq_self.mpr
        intro r hr
        simp only [List.mem_map] at hr
        obtain ⟨s, _, rfl⟩ := hr
        simp [matchesQuery]
      · rw [if_neg hw]
        apply List.filter_eq_nil_iff.mpr
        intro r hr
        simp only [List.mem_map] at hr
        obtain ⟨s, _, rfl⟩ := hr
        simp [matchesQuery, hw]
    rw [hbatch]
    have hrows : rows_for run_id (w :: ws) =
        (if w.1 = run_id then
          w.2.2.map fun s =>
            ({ run_id := run_id, timestamp := w.2.1, payload := s } :
              HaproxyRow α)
         else []) ++ rows_for run_id ws := by
      unfold rows_for
      rw [List.flatMap_cons]
    rw [hrows, List.append_assoc]

theorem tsLe_trans {α : Type} :
    ∀ a b c : HaproxyRow α, tsLe a b → tsLe b c → tsLe a c := by
  intro a b c hab hbc
  simp only [tsLe, decide_eq_true_eq] at *
  omega

theorem tsLe_total {α : Type} : ∀ a b : HaproxyRow α, tsLe a b || tsLe b a := by
  intro a b
  simp only [tsLe]
  rcases Nat.le_total a.timestamp b.timestamp with h | h
  · simp [h]
  · simp [h]

/-- C3: writing any sequence of sample batches for a run (interleaved with
writes for other runs) into a table holding no rows for that run, then
reading all samples for the run, returns exactly the written rows — as
many records as were written, a permutation of them (no duplicates, no
drops), ordered by timestamp ascending. -/
theorem c3_store_then_read {α : Type} (run_id : Nat)
    (writes : List (Nat × Nat × List α)) (init : List (HaproxyRow α))
    (hinit : ∀ r ∈ init, r.run_id ≠ run_id) :
    (get_haproxy_stats run_id none none (apply_writes writes init)).length =
      (rows_for run_id writes).length ∧
    List.Perm (get_haproxy_stats run_id none none (apply_writes writes init))
      (rows_for run_id writes) ∧
    (get_haproxy_stats run_id none none (apply_writes writes init)).Pairwise
      (fun a b => a.timestamp ≤ b.timestamp) := by
  have hinit_nil : init.filter (matchesQuery run_id none none) = [] := by
    apply List.filter_eq_nil_iff.mpr
    intro r hr
    simp [matchesQuery, hinit r hr]
  unfold get_haproxy_stats
  rw [filter_apply_writes run_id writes init, hinit_nil, List.nil_append]
  refine ⟨List.length_mergeSort _, List.mergeSort_perm _ _, ?_⟩
  have hs := List.sorted_mergeSort tsLe_trans tsLe_total
    (rows_for run_id writes)
  exact hs.imp fun hab => by
    simpa only [tsLe, decide_eq_true_eq] using hab

/-- Concrete instantiation of `c3_store_then_read`: three writes, two for
run 1 (three rows total, timestamps 10 and 7) and one for run 2. -/
theorem c3_store_then_read_witness :
    (get_haproxy_stats 1 none none
        (apply_writes [(1, 10, [100, 101]), (2, 5, [200]), (1, 7, [102])]
          ([] : List (HaproxyRow Nat)))).length = 3 ∧
    List.Perm
      (get_haproxy_stats 1 none none
        (apply_writes [(1, 10, [100, 101]), (2, 5, [200]), (1, 7, [102])]
          ([] : List (HaproxyRow Nat))))
      (rows_for 1 [(1, 10, [100, 101]), (2, 5, [200]), (1, 7, [102])]) ∧
    (get_haproxy_stats 1 none none
        (apply_writes [(1, 10, [100, 101]), (2, 5, [200]), (1, 7, [102])]
          ([] : List (HaproxyRow Nat)))).Pairwise
      (fun a b => a.timestamp ≤ b.timestamp) := by
  have hc := c3_store_then_read 1
    [(1, 10, [100, 101]), (2, 5, [200]), (1, 7, [102])]
    ([] : List (HaproxyRow Nat)) (by intro r hr; simp at hr)
  refine ⟨?_, hc.2.1, hc.2.2⟩
  rw [hc.1]
  rfl

end OctaviaPerf
